import Mathlib

/-!
Shallow embedding of `src/pyqt_segmentation_annotator.py`, a PyQt5 tool for
drawing a freehand polygon on an image and exporting a binary mask.

Modelling conventions:
* Scene coordinates are exact integers (`ℤ × ℤ`); event positions handed to
  the mouse handlers are the already-transformed scene positions
  (`mapToScene(event.pos())` in the source).
* A `QPainterPath` is the list of its subpaths, each subpath the ordered list
  of its element points (a `moveTo` starts a new subpath, a `lineTo` appends
  to the current one).
* A `QImage`/`QPixmap` is represented by its pixel size `ℕ × ℕ`.
* File-system effects are made explicit: the dataset directory is the list of
  file names present in it, and the success of the `QImage.save` disk write is
  an explicit boolean parameter (the source ignores its return value).
-/

/-- A 2D point in scene coordinates.  The traces the claims are about only
use whole-number scene positions, so coordinates are modelled as integers
(exact arithmetic; the source's floating-point `QPointF` is not modelled). -/
abbrev Point : Type := ℤ × ℤ

/-- A `QPainterPath`: the list of its subpaths in creation order.  Each
subpath is the ordered list of element points: the point of the initial
`moveTo` followed by the target point of each `lineTo`. -/
structure PainterPath where
  subpaths : List (List Point)
deriving DecidableEq, Repr

/-- `QPainterPath()` — the empty path. -/
def PainterPath.emptyPath : PainterPath := ⟨[]⟩

/-- `path.moveTo(p)`: starts a new subpath at `p`. -/
def PainterPath.moveTo (path : PainterPath) (p : Point) : PainterPath :=
  ⟨path.subpaths ++ [[p]]⟩

/-- Append a point to the last subpath of a nonempty subpath list. -/
def appendLast (sps : List (List Point)) (q : Point) : List (List Point) :=
  match sps with
  | [] => []
  | [s] => [s ++ [q]]
  | s :: rest => s :: appendLast rest q

/-- `path.lineTo(p)`: appends a line element to the current subpath; on a path
with no current position Qt starts the line at `(0, 0)`. -/
def PainterPath.lineTo (path : PainterPath) (p : Point) : PainterPath :=
  match path.subpaths with
  | [] => ⟨[[((0 : ℤ), (0 : ℤ)), p]]⟩
  | sps => ⟨appendLast sps p⟩

/-- Number of path elements (each `moveTo` and each `lineTo` is one element). -/
def PainterPath.elemCount (path : PainterPath) : ℕ :=
  (path.subpaths.map List.length).sum

/-- `QPainterPath.isEmpty()`: true when the path has no elements or its only
element is the initial `moveTo`. -/
def PainterPath.isEmpty (path : PainterPath) : Bool :=
  path.elemCount ≤ 1

/-- The state of `AnnotationCanvas`: `pixmapItem` models `self.pixmap_item`
being non-`None`, `image` models the `self.image` attribute (absent before the
first `load_image`), `pathItem` models the scene item displaying the path
(path shown and its pen width). -/
structure Canvas where
  pixmapItem : Bool
  image : Option (ℕ × ℕ)
  drawing : Bool
  path : PainterPath
  pathItem : Option (PainterPath × ℚ)
  points : List Point
  scale_factor : ℚ
deriving DecidableEq, Repr

/-- `AnnotationCanvas.__init__`. -/
def initCanvas : Canvas :=
  { pixmapItem := false
    image := none
    drawing := false
    path := PainterPath.emptyPath
    pathItem := none
    points := []
    scale_factor := 1 }

/-- `AnnotationCanvas.load_image(file_path)`; `sz` is the pixel size of the
loaded file. -/
def Canvas.load_image (c : Canvas) (sz : ℕ × ℕ) : Canvas :=
  { c with
    image := some sz
    pixmapItem := true
    points := []
    path := PainterPath.emptyPath
    pathItem := none
    scale_factor := 1 }

/-- `AnnotationCanvas.mousePressEvent` for a left-button press; `pos` is the
scene position `mapToScene(event.pos())`. -/
def Canvas.mousePressEvent (c : Canvas) (pos : Point) : Canvas :=
  if c.pixmapItem then
    { c with
      drawing := true
      path := c.path.moveTo pos
      points := [pos]
      pathItem := none }
  else c

/-- `AnnotationCanvas.mouseMoveEvent`; `pos` is the scene position. -/
def Canvas.mouseMoveEvent (c : Canvas) (pos : Point) : Canvas :=
  if c.drawing then
    let path' := c.path.lineTo pos
    { c with
      path := path'
      points := c.points ++ [pos]
      pathItem := some (path', 2 / c.scale_factor) }
  else c

/-- `AnnotationCanvas.mouseReleaseEvent` for a left-button release. -/
def Canvas.mouseReleaseEvent (c : Canvas) : Canvas :=
  if c.drawing then
    match c.points with
    | [] => { c with drawing := false }
    | p0 :: _ =>
      let path' := c.path.lineTo p0
      { c with
        drawing := false
        path := path'
        pathItem := some (path', 2 / c.scale_factor) }
  else c

/-- `AnnotationCanvas._redraw_path`: rebuilds `self.path` from `self.points`
(adding the closing edge when not drawing) and replaces the displayed item,
showing the new path only when it is not empty. -/
def Canvas.redraw_path (c : Canvas) : Canvas :=
  let path :=
    match c.points with
    | [] => PainterPath.emptyPath
    | p0 :: rest =>
      let base := (PainterPath.emptyPath.moveTo p0)
      let withLines := rest.foldl PainterPath.lineTo base
      if c.drawing then withLines else withLines.lineTo p0
  let item := if path.isEmpty then none else some (path, 2 / c.scale_factor)
  { c with path := path, pathItem := item }

/-- `AnnotationCanvas.undo_last`. -/
def Canvas.undo_last (c : Canvas) : Canvas :=
  if c.points = [] then c
  else Canvas.redraw_path { c with points := c.points.dropLast }

/-- `AnnotationCanvas.clear_annotation`. -/
def Canvas.clear_annotation (c : Canvas) : Canvas :=
  { c with points := [], path := PainterPath.emptyPath, pathItem := none }

/-- `AnnotationCanvas.wheelEvent`; `deltaY` is `event.angleDelta().y()`.  The
`scale_factor` field here tracks the literal source constants `1.25` and
`0.8` as the exact ratios `5/4` and `4/5`, an idealization used only for the
bookkeeping the other handlers do with the field.  The program stores the
scale factor as a Python IEEE-754 double, where `0.8` is inexact and every
product rounds; that arithmetic is modelled faithfully by `f64mulPos` /
`floatScaleStep` below, which the scale-factor claims are stated against. -/
def Canvas.wheelEvent (c : Canvas) (deltaY : ℤ) : Canvas :=
  let factor : ℚ := if deltaY > 0 then 5 / 4 else 4 / 5
  { c with scale_factor := c.scale_factor * factor }

/-! ### IEEE-754 binary64 semantics of the scale factor

`self.scale_factor *= factor` operates on Python floats (IEEE-754 binary64).
Every value the scale factor takes is a positive normal double, represented
here as a pair `(m, e)` with `2^52 ≤ m < 2^53` and value `m · 2^e`. -/

/-- IEEE-754 binary64 multiplication of positive normal doubles, rounding to
nearest with ties to even.  The exact significand product `m₁ * m₂` lies in
`[2^104, 2^106)`, so renormalization shifts by `52` or `53` bits; the dropped
bits round the quotient, with a carry renormalized once more.  (The scale
factors reached here stay far from overflow and underflow, so neither is
modelled.) -/
def f64mulPos (a b : ℕ × ℤ) : ℕ × ℤ :=
  let M := a.1 * b.1
  let E := a.2 + b.2
  let k : ℕ := if M < 2 ^ 105 then 52 else 53
  let q := M / 2 ^ k
  let r := M % 2 ^ k
  let half := 2 ^ (k - 1)
  let q' := if half < r ∨ (r = half ∧ q % 2 = 1) then q + 1 else q
  if q' = 2 ^ 53 then (2 ^ 52, E + (k : ℤ) + 1) else (q', E + (k : ℤ))

/-- The double `1.0`, the initial scale factor. -/
def f64One : ℕ × ℤ := (4503599627370496, -52)

/-- The double `1.25` (exactly `5/4`), the zoom-in factor. -/
def f64ZoomIn : ℕ × ℤ := (5629499534213120, -52)

/-- The double written `0.8` in the source: the binary64 value nearest `4/5`,
namely `7205759403792794 · 2⁻⁵³ = 0.8000000000000000444…`, the zoom-out
factor. -/
def f64ZoomOut : ℕ × ℤ := (7205759403792794, -53)

/-- One `wheelEvent` acting on the scale factor under the program's actual
float semantics: multiply by the double `1.25` when `angleDelta().y() > 0`,
by the double `0.8` otherwise. -/
def floatScaleStep (s : ℕ × ℤ) (deltaY : ℤ) : ℕ × ℤ :=
  if deltaY > 0 then f64mulPos s f64ZoomIn else f64mulPos s f64ZoomOut

/-- The scale factor after a sequence of wheel deltas from the initial
`1.0`. -/
def floatScaleAfter (ds : List ℤ) : ℕ × ℤ :=
  ds.foldl floatScaleStep f64One

/-! ### Mask rasterization (`export_mask`)

`export_mask` allocates a `Format_Grayscale8` image of the source image's
size, fills it with `0`, and fills the path interior with white (`255`) using
a `QPainter` with no pen.  `QPainterPath` fills with the even–odd rule by
default (`Qt.OddEvenFill`), each subpath implicitly closed; we model the
interior test as an even–odd horizontal-ray crossing count at the integer
pixel coordinate. -/

/-- The edges of one filled subpath: consecutive element points, plus the
implicit closing edge from the last point back to the first. -/
def subpathEdges (sp : List Point) : List (Point × Point) :=
  match sp with
  | [] => []
  | p0 :: _ => sp.zip (sp.drop 1 ++ [p0])

/-- Even–odd test: does the horizontal ray from `q` towards `+x` cross the
edge `e`?  Half-open in `y` so shared vertices are counted once; the
`q.1 < x`-intersection comparison is written cross-multiplied (by the edge's
`y` extent, positive for an upward edge and negative for a downward one) to
stay in exact integer arithmetic. -/
def crossesRay (q : Point) (e : Point × Point) : Bool :=
  let a := e.1
  let b := e.2
  if a.2 ≤ q.2 ∧ q.2 < b.2 then
    decide ((q.1 - a.1) * (b.2 - a.2) < (q.2 - a.2) * (b.1 - a.1))
  else if b.2 ≤ q.2 ∧ q.2 < a.2 then
    decide ((q.2 - a.2) * (b.1 - a.1) < (q.1 - a.1) * (b.2 - a.2))
  else false

/-- Even–odd interior test of a painter path at a point. -/
def PainterPath.insideEO (path : PainterPath) (q : Point) : Bool :=
  ((path.subpaths.map subpathEdges).flatten.countP (crossesRay q)) % 2 == 1

/-- The mask raster: pixel dimensions and the grayscale value at each pixel
coordinate. -/
structure Mask where
  width : ℕ
  height : ℕ
  pix : ℕ → ℕ → ℕ

/-- The mask image `export_mask` builds: size of the source image, filled
with `0`, path interior filled with `255`. -/
def renderMask (sz : ℕ × ℕ) (path : PainterPath) : Mask :=
  { width := sz.1
    height := sz.2
    pix := fun x y => if path.insideEO ((x : ℤ), (y : ℤ)) then 255 else 0 }

/-- Outcome of one `export_mask` call.  `failure` is the early `return False`
(nothing touched); `crash` is the `AttributeError` raised by `self.image`
when no image was ever loaded; `success m written` is `return True` with the
mask raster `m`, where `written` records whether the `mask_img.save` disk
write succeeded — the source ignores that value. -/
inductive ExportResult where
  | failure : ExportResult
  | crash : ExportResult
  | success : Mask → Bool → ExportResult

/-- The value `export_mask` returns to its caller: `none` when it raises. -/
def ExportResult.retVal : ExportResult → Option Bool
  | .failure => some false
  | .crash => none
  | .success _ _ => some true

/-- Whether the call left a mask file at the destination. -/
def ExportResult.fileWritten : ExportResult → Bool
  | .success _ written => written
  | _ => false

/-- `AnnotationCanvas.export_mask(output_path)`.  `writeOk` is whether the
`mask_img.save(output_path)` disk write succeeds; the source discards its
return value and returns `True` regardless. -/
def Canvas.export_mask (c : Canvas) (writeOk : Bool) : ExportResult :=
  if c.points = [] then .failure
  else
    match c.image with
    | none => .crash
    | some sz => .success (renderMask sz c.path) writeOk

/-! ### The main window (`MainWindow`)

The dataset directory is modelled as the list of file names it contains;
`shutil.copy` / a succeeded mask save add a name to it (a directory holds each
name at most once).  The label-entry dialog's outcome is passed in as the pair
`(dialogOk, name)`. -/

/-- Python's `name.strip()`: the string with leading and trailing whitespace
removed. -/
def pyStrip (s : String) : String :=
  String.mk (((s.toList.dropWhile Char.isWhitespace).reverse.dropWhile
    Char.isWhitespace).reverse)

/-- Python's `sep in fname` for a one-character separator. -/
def pyContains (s : String) (sep : Char) : Bool :=
  s.toList.contains sep

/-- `fname.split(sep)[0]` for a one-character separator: the prefix of the
string before the first occurrence of `sep` (the whole string when absent). -/
def pySplitHead (sep : Char) (s : String) : String :=
  String.mk (s.toList.takeWhile (fun c => c != sep))

/-- `os.path.splitext(p)[1]`: the extension including its dot, taken from the
last `.` of the final path component (empty when there is none). -/
def splitext_ext (p : String) : String :=
  let rev := p.toList.reverse
  let after := rev.takeWhile (fun c => c != '.' && c != '/')
  match rev.drop after.length with
  | '.' :: _ => String.mk ('.' :: after.reverse)
  | _ => ""

/-- Creating a file named `fname` in a directory listing. -/
def fsWrite (fname : String) (files : List String) : List String :=
  if fname ∈ files then files else files ++ [fname]

/-- The label list computed by `MainWindow.update_dataset_list`: the distinct
`fname.split('_')[0]` prefixes of the directory entries that contain an
underscore, in ascending lexicographic order (Python `sorted` of a `set`). -/
def labelList (items : List String) : List String :=
  (((items.filter (fun f => pyContains f '_')).map (pySplitHead '_')).dedup).mergeSort
    (fun a b => a ≤ b)

/-- Modelled from the spec (claim C8's wording, to compare with `labelList`):
"splits each filename on the first underscore, collects the distinct set of
prefixes, and displays them sorted lexicographically" — every filename
contributes its prefix, also when it contains no underscore. -/
def specLabelList (items : List String) : List String :=
  ((items.map (pySplitHead '_')).dedup).mergeSort (fun a b => a ≤ b)

/-- State of `MainWindow`: the canvas, `self.current_file`, the dataset
directory contents, and the labels shown in `self.list_widget`. -/
structure MainWindow where
  canvas : Canvas
  current_file : Option String
  dataset : List String
  listWidget : List String
deriving Repr

/-- `MainWindow.update_dataset_list`. -/
def MainWindow.update_dataset_list (w : MainWindow) : MainWindow :=
  { w with listWidget := labelList w.dataset }

/-- What `save_annotation` reports to the user (modal dialog shown, or the
propagated `AttributeError`). -/
inductive SaveOutcome where
  | warnNoImage : SaveOutcome
  | warnInvalidName : SaveOutcome
  | savedInfo : String → String → SaveOutcome
  | warnNothingDrawn : SaveOutcome
  | crash : SaveOutcome
deriving DecidableEq, Repr

/-- `MainWindow.save_annotation`.  `dialogOk` and `name` are the label
dialog's result; `maskWriteOk` is whether the mask disk write would succeed.
Returns the new window state and what was reported to the user. -/
def MainWindow.save_annotation (w : MainWindow) (dialogOk : Bool) (name : String)
    (maskWriteOk : Bool) : MainWindow × SaveOutcome :=
  match w.current_file with
  | none => (w, .warnNoImage)
  | some cf =>
    if !dialogOk || pyStrip name == "" then (w, .warnInvalidName)
    else
      let ext := splitext_ext cf
      let new_image_name := name ++ "_image" ++ ext
      let w1 := { w with dataset := fsWrite new_image_name w.dataset }
      let mask_name := name ++ "_mask.png"
      match w1.canvas.export_mask maskWriteOk with
      | .failure => (w1, .warnNothingDrawn)
      | .crash => (w1, .crash)
      | .success _ written =>
        let w2 := if written then { w1 with dataset := fsWrite mask_name w1.dataset } else w1
        (w2.update_dataset_list, .savedInfo new_image_name mask_name)

/-! ### Event traces

Reachable canvas states: every state produced from a fresh canvas by a
sequence of UI events (left-button mouse events carry scene positions,
`load` carries the pixel size of the chosen file). -/

/-- One UI event delivered to the canvas. -/
inductive Event where
  | load : ℕ × ℕ → Event
  | press : Point → Event
  | move : Point → Event
  | release : Event
  | undo : Event
  | clear : Event
  | wheel : ℤ → Event
deriving DecidableEq, Repr

/-- Dispatch one event to the canvas. -/
def Canvas.step (c : Canvas) : Event → Canvas
  | .load sz => c.load_image sz
  | .press p => c.mousePressEvent p
  | .move p => c.mouseMoveEvent p
  | .release => c.mouseReleaseEvent
  | .undo => c.undo_last
  | .clear => c.clear_annotation
  | .wheel d => c.wheelEvent d

/-- The canvas state after a sequence of events from a fresh canvas. -/
def runEvents (es : List Event) : Canvas :=
  es.foldl Canvas.step initCanvas

/-! ### Derived notions used in the statements -/

/-- The path synthesized from a point sequence alone: one subpath through the
points in order, with the closing edge back to the first point exactly when
not drawing.  (`_redraw_path` provably computes this, see
`redraw_path_path`.) -/
def synthPath (pts : List Point) (drawing : Bool) : PainterPath :=
  match pts with
  | [] => PainterPath.emptyPath
  | p0 :: rest => ⟨[p0 :: (rest ++ if drawing then [] else [p0])]⟩

/-- The pixel dimensions of the mask an export produced, if any. -/
def ExportResult.maskSize : ExportResult → Option (ℕ × ℕ)
  | .success m _ => some (m.width, m.height)
  | _ => none

/-- The grayscale value of the produced mask at a pixel, if a mask was
produced. -/
def ExportResult.maskAt : ExportResult → ℕ → ℕ → Option ℕ
  | .success m _, x, y => some (m.pix x y)
  | _, _, _ => none

/-- The reachability invariant of the canvas: drawing requires a displayed
pixmap, a non-empty point sequence requires a displayed pixmap, and a
displayed pixmap requires the `self.image` attribute to exist. -/
def Canvas.inv (c : Canvas) : Prop :=
  (c.drawing = true → c.pixmapItem = true) ∧
  (c.points ≠ [] → c.pixmapItem = true) ∧
  (c.pixmapItem = true → c.image.isSome = true)

/-! ### Concrete states used by counterexamples and witnesses -/

/-- Draw a first triangle, commit it, then press to start a second polygon. -/
def c1Events : List Event :=
  [.load (10, 10), .press (0, 0), .move (2, 0), .move (1, 2), .release, .press (5, 5)]

/-- Continue `c1Events`: drag out and commit the second polygon. -/
def c1Events2 : List Event := c1Events ++ [.move (6, 5), .move (6, 6), .release]

/-- A canvas with a 3×3 image and one committed triangle. -/
def canvasDrawn : Canvas :=
  ((((initCanvas.load_image (3, 3)).mousePressEvent (0, 0)).mouseMoveEvent
    (2, 0)).mouseMoveEvent (1, 2)).mouseReleaseEvent

/-- A canvas with a 4×4 image where drawing has just started. -/
def canvasPressed : Canvas :=
  (initCanvas.load_image (4, 4)).mousePressEvent (1, 1)

/-- A window with an image loaded but nothing drawn and an empty dataset
directory. -/
def winLoaded : MainWindow :=
  { canvas := initCanvas.load_image (5, 5)
    current_file := some "img.png"
    dataset := []
    listWidget := [] }

/-- A window whose canvas holds the committed triangle of `canvasDrawn`. -/
def winDrawn : MainWindow :=
  { canvas := canvasDrawn
    current_file := some "img.png"
    dataset := []
    listWidget := [] }

/-- A short event trace: load an image, then press. -/
def c10Trace : List Event := [.load (4, 4), .press (1, 1)]

/-! ### Supporting lemmas -/

/-- `lineTo` on a single-subpath path appends to that subpath. -/
theorem lineTo_single (s : List Point) (q : Point) :
    PainterPath.lineTo ⟨[s]⟩ q = ⟨[s ++ [q]]⟩ := rfl

/-- Folding `lineTo` over a single-subpath path appends all the points. -/
theorem foldl_lineTo_single (qs : List Point) (s : List Point) :
    qs.foldl PainterPath.lineTo ⟨[s]⟩ = ⟨[s ++ qs]⟩ := by
  induction qs generalizing s with
  | nil => simp
  | cons q qs ih =>
    rw [List.foldl_cons, lineTo_single, ih]
    simp

/-- `_redraw_path` rebuilds exactly the path synthesized from the point
sequence, with the closing edge exactly when not drawing. -/
theorem redraw_path_path (c : Canvas) :
    (c.redraw_path).path = synthPath c.points c.drawing := by
  cases hp : c.points with
  | nil => simp [Canvas.redraw_path, synthPath, hp]
  | cons p0 rest =>
    have hbase : PainterPath.emptyPath.moveTo p0 = ⟨[[p0]]⟩ := rfl
    cases hd : c.drawing with
    | true =>
      simp only [Canvas.redraw_path, synthPath, hp, hd, hbase, foldl_lineTo_single, if_true]
      simp
    | false =>
      simp only [Canvas.redraw_path, synthPath, hp, hd, hbase, foldl_lineTo_single,
        Bool.false_eq_true, if_false, lineTo_single]
      simp

/-- `_redraw_path` changes only the path and the displayed item. -/
theorem redraw_path_points (c : Canvas) :
    (c.redraw_path).points = c.points ∧
    (c.redraw_path).drawing = c.drawing ∧
    (c.redraw_path).image = c.image ∧
    (c.redraw_path).pixmapItem = c.pixmapItem := by
  unfold Canvas.redraw_path
  exact ⟨rfl, rfl, rfl, rfl⟩

/-- The element count of the synthesized path: one per point, plus one for
the closing edge exactly when not drawing. -/
theorem synthPath_elemCount (pts : List Point) (drawing : Bool) (h : pts ≠ []) :
    (synthPath pts drawing).elemCount =
      pts.length + (if drawing then 0 else 1) := by
  cases pts with
  | nil => exact absurd rfl h
  | cons p0 rest =>
    cases drawing <;> simp [synthPath, PainterPath.elemCount, Nat.add_comm]

/-- `List.mergeSort` with the string comparator `a ≤ b` produces a list
sorted by `≤`. -/
theorem mergeSort_le_pairwise (l : List String) :
    List.Pairwise (fun a b : String => a ≤ b)
      (l.mergeSort (fun a b => a ≤ b)) := by
  have hs := @List.sorted_mergeSort String (fun a b => decide (a ≤ b))
    (fun a b c hab hbc => by
      simp only [decide_eq_true_eq] at *
      exact le_trans hab hbc)
    (fun a b => by
      simp only [Bool.or_eq_true, decide_eq_true_eq]
      exact le_total a b)
    l
  exact hs.imp (fun h => of_decide_eq_true h)

/-- Every single event preserves the invariant. -/
theorem inv_step (c : Canvas) (e : Event) (h : c.inv) : (c.step e).inv := by
  obtain ⟨h1, h2, h3⟩ := h
  cases e with
  | load sz =>
    exact ⟨fun _ => rfl, fun _ => rfl, fun _ => rfl⟩
  | press p =>
    show (c.mousePressEvent p).inv
    unfold Canvas.mousePressEvent
    by_cases hpix : c.pixmapItem
    · rw [if_pos hpix]
      exact ⟨fun _ => hpix, fun _ => hpix, fun _ => h3 hpix⟩
    · rw [if_neg hpix]; exact ⟨h1, h2, h3⟩
  | move p =>
    show (c.mouseMoveEvent p).inv
    unfold Canvas.mouseMoveEvent
    by_cases hdr : c.drawing
    · rw [if_pos hdr]
      exact ⟨fun _ => h1 hdr, fun _ => h1 hdr, fun _ => h3 (h1 hdr)⟩
    · rw [if_neg hdr]; exact ⟨h1, h2, h3⟩
  | release =>
    show c.mouseReleaseEvent.inv
    unfold Canvas.mouseReleaseEvent
    by_cases hdr : c.drawing
    · rw [if_pos hdr]
      cases hp : c.points with
      | nil =>
        exact ⟨fun h => absurd h Bool.false_ne_true, fun hne => absurd rfl hne, h3⟩
      | cons p0 rest =>
        exact ⟨fun h => absurd h Bool.false_ne_true, fun _ => h2 (by simp [hp]), h3⟩
    · rw [if_neg hdr]; exact ⟨h1, h2, h3⟩
  | undo =>
    show c.undo_last.inv
    unfold Canvas.undo_last
    by_cases hp : c.points = []
    · rw [if_pos hp]; exact ⟨h1, h2, h3⟩
    · rw [if_neg hp]
      obtain ⟨hpts, hdrw, himg, hpix⟩ :=
        redraw_path_points { c with points := c.points.dropLast }
      refine ⟨?_, ?_, ?_⟩
      · rw [hdrw, hpix]; exact h1
      · rw [hpts, hpix]; intro _; exact h2 hp
      · rw [hpix, himg]; exact h3
  | clear =>
    show c.clear_annotation.inv
    exact ⟨h1, fun h => absurd rfl h, h3⟩
  | wheel d =>
    show (c.wheelEvent d).inv
    exact ⟨h1, h2, h3⟩

/-- The invariant holds along any event sequence. -/
theorem inv_foldl (es : List Event) (c : Canvas) (h : c.inv) :
    (es.foldl Canvas.step c).inv := by
  induction es generalizing c with
  | nil => exact h
  | cons e es ih => exact ih _ (inv_step c e h)

/-- Every reachable canvas state satisfies the invariant. -/
theorem inv_runEvents (es : List Event) : (runEvents es).inv :=
  inv_foldl es initCanvas
    ⟨fun h => absurd h Bool.false_ne_true, fun h => absurd rfl h,
     fun h => absurd h Bool.false_ne_true⟩

/-! ### The claims -/

/-- C4: `export_mask` returns the failure indicator (`False`) if and only if
the point sequence is empty, and on an empty point sequence it fails without
writing any file. -/
theorem c4_export_mask_failure_iff_empty (c : Canvas) (writeOk : Bool) :
    (c.export_mask writeOk = ExportResult.failure ↔ c.points = []) ∧
    (c.points = [] →
      (c.export_mask writeOk).retVal = some false ∧
      (c.export_mask writeOk).fileWritten = false) := by
  by_cases hp : c.points = [] <;>
    cases himg : c.image <;>
      simp [Canvas.export_mask, hp, himg, ExportResult.retVal, ExportResult.fileWritten]

/-- Witness for C4: on the fresh canvas (empty point sequence) `export_mask`
returns `False` and writes nothing. -/
theorem c4_export_mask_failure_iff_empty_witness :
    initCanvas.export_mask true = ExportResult.failure ∧
    (initCanvas.export_mask true).retVal = some false ∧
    (initCanvas.export_mask true).fileWritten = false :=
  ⟨(c4_export_mask_failure_iff_empty initCanvas true).1.mpr rfl,
   (c4_export_mask_failure_iff_empty initCanvas true).2 rfl⟩

/-- C7 counterexample: under the program's IEEE-754 double semantics the
zoom round trip does not restore every starting scale.  The reachable scale
after wheel-out, wheel-out, wheel-in is `0.8000000000000002`
(`7205759403792795 · 2⁻⁵³`); one further zoom-in followed by one zoom-out
lands one ulp higher, at `0.8000000000000003`. -/
theorem c7_counterexample_float_roundtrip :
    floatScaleAfter [-1, -1, 1] = (7205759403792795, -53) ∧
    floatScaleStep (floatScaleStep (floatScaleAfter [-1, -1, 1]) 1) (-1) =
      (7205759403792796, -53) ∧
    floatScaleStep (floatScaleStep (floatScaleAfter [-1, -1, 1]) 1) (-1) ≠
      floatScaleAfter [-1, -1, 1] := by
  exact ⟨by decide, by decide, by decide⟩

/-- C7 (amended): each wheel-up multiplies the scale factor by the double
`1.25` (exactly `5/4`) and each wheel-down by the double nearest `0.8`, with
the product rounded to the nearest double; from the initial scale `1.0` one
zoom-in followed by one zoom-out restores exactly `1.0` (but at other
reachable scales the round trip can drift by one ulp, see the
counterexample); the stroke width of the drawn path is the base width `2`
divided by the cumulative scale factor. -/
theorem c7_amended_zoom_double_semantics (c : Canvas) (d d' : ℤ) (p : Point)
    (hd : 0 < d) (hd' : d' < 0) (hdraw : c.drawing = true) :
    (∀ s : ℕ × ℤ, floatScaleStep s d = f64mulPos s f64ZoomIn) ∧
    (∀ s : ℕ × ℤ, floatScaleStep s d' = f64mulPos s f64ZoomOut) ∧
    floatScaleStep f64One d = f64ZoomIn ∧
    floatScaleStep (floatScaleStep f64One d) d' = f64One ∧
    (c.mouseMoveEvent p).pathItem = some (c.path.lineTo p, 2 / c.scale_factor) := by
  have hnd' : ¬ (0 < d') := not_lt.mpr hd'.le
  have hin : ∀ s : ℕ × ℤ, floatScaleStep s d = f64mulPos s f64ZoomIn := fun s => by
    simp [floatScaleStep, hd]
  have hout : ∀ s : ℕ × ℤ, floatScaleStep s d' = f64mulPos s f64ZoomOut := fun s => by
    simp [floatScaleStep, hnd']
  refine ⟨hin, hout, ?_, ?_, ?_⟩
  · rw [hin]; decide
  · rw [hin, hout]; decide
  · simp [Canvas.mouseMoveEvent, hdraw]

/-- Witness for the amended C7 at a freshly-started drawing, wheel deltas
`±120`. -/
theorem c7_amended_zoom_double_semantics_witness :
    floatScaleStep f64One 120 = f64ZoomIn ∧
    floatScaleStep (floatScaleStep f64One 120) (-120) = f64One ∧
    (canvasPressed.mouseMoveEvent (2, 2)).pathItem =
      some (canvasPressed.path.lineTo (2, 2), 2 / canvasPressed.scale_factor) :=
  have h := c7_amended_zoom_double_semantics canvasPressed 120 (-120) (2, 2)
    (by decide) (by decide) rfl
  ⟨h.2.2.1, h.2.2.2.1, h.2.2.2.2⟩

/-- C10: in every state reachable by UI events, a non-empty point sequence
implies the image attribute is present, so `export_mask` never raises on its
`self.image` read (its return value is never the crash marker `none`). -/
theorem c10_nonempty_points_imply_image (es : List Event) (writeOk : Bool)
    (h : (runEvents es).points ≠ []) :
    (runEvents es).image.isSome = true ∧
    ((runEvents es).export_mask writeOk).retVal ≠ none := by
  obtain ⟨h1, h2, h3⟩ := inv_runEvents es
  have himg : (runEvents es).image.isSome = true := h3 (h2 h)
  refine ⟨himg, ?_⟩
  obtain ⟨sz, hsz⟩ := Option.isSome_iff_exists.mp himg
  simp [Canvas.export_mask, h, hsz, ExportResult.retVal]

/-- Witness for C10: after loading an image and pressing, the point sequence
is non-empty, the image is present, and `export_mask` does not raise. -/
theorem c10_nonempty_points_imply_image_witness :
    (runEvents c10Trace).points ≠ [] ∧
    (runEvents c10Trace).image.isSome = true ∧
    ((runEvents c10Trace).export_mask true).retVal ≠ none :=
  ⟨by decide, c10_nonempty_points_imply_image c10Trace true (by decide)⟩

/-- C3: with a non-empty point sequence (and the loaded image of size `sz`),
`export_mask` produces a mask raster of exactly the source image's pixel
dimensions, `0` outside and `255` on the path interior, so every pixel value
is in `{0, 255}`. -/
theorem c3_mask_dims_and_binary_values (c : Canvas) (sz : ℕ × ℕ) (writeOk : Bool)
    (hpts : c.points ≠ []) (himg : c.image = some sz) :
    (c.export_mask writeOk).maskSize = some sz ∧
    (∀ x y : ℕ, (c.export_mask writeOk).maskAt x y =
      some (if c.path.insideEO ((x : ℤ), (y : ℤ)) then 255 else 0)) ∧
    (∀ x y v : ℕ, (c.export_mask writeOk).maskAt x y = some v → v = 0 ∨ v = 255) := by
  have hexp : c.export_mask writeOk = .success (renderMask sz c.path) writeOk := by
    simp [Canvas.export_mask, hpts, himg]
  refine ⟨?_, ?_, ?_⟩
  · simp [hexp, ExportResult.maskSize, renderMask]
  · intro x y
    simp [hexp, ExportResult.maskAt, renderMask]
  · intro x y v hv
    simp [hexp, ExportResult.maskAt, renderMask] at hv
    by_cases hin : c.path.insideEO ((x : ℤ), (y : ℤ))
    · rw [if_pos hin] at hv; omega
    · rw [if_neg hin] at hv; omega

/-- Witness for C3 on the committed triangle over a 3×3 image. -/
theorem c3_mask_dims_and_binary_values_witness :
    canvasDrawn.points ≠ [] ∧
    (canvasDrawn.export_mask true).maskSize = some (3, 3) ∧
    (canvasDrawn.export_mask true).maskAt 1 1 =
      some (if canvasDrawn.path.insideEO ((1 : ℤ), (1 : ℤ)) then 255 else 0) :=
  ⟨by decide,
   (c3_mask_dims_and_binary_values canvasDrawn (3, 3) true (by decide) rfl).1,
   (c3_mask_dims_and_binary_values canvasDrawn (3, 3) true (by decide) rfl).2.1 1 1⟩

/-- C9: with a non-empty point sequence and a loaded image, `export_mask`
returns `True` even when the mask disk write fails (its return value is
ignored), no mask file exists at the destination, and `save_annotation`
still reports the save to the user as successful. -/
theorem c9_success_reported_despite_failed_write (w : MainWindow)
    (cf name : String) (sz : ℕ × ℕ)
    (hcf : w.current_file = some cf) (hname : pyStrip name ≠ "")
    (hpts : w.canvas.points ≠ []) (himg : w.canvas.image = some sz) :
    (w.canvas.export_mask false).retVal = some true ∧
    (w.canvas.export_mask false).fileWritten = false ∧
    (w.save_annotation true name false).2 =
      SaveOutcome.savedInfo (name ++ "_image" ++ splitext_ext cf) (name ++ "_mask.png") := by
  have hexp : w.canvas.export_mask false = .success (renderMask sz w.canvas.path) false := by
    simp [Canvas.export_mask, hpts, himg]
  have hb : (pyStrip name == "") = false := beq_eq_false_iff_ne.mpr hname
  refine ⟨by simp [hexp, ExportResult.retVal], by simp [hexp, ExportResult.fileWritten], ?_⟩
  simp [MainWindow.save_annotation, hcf, hb, hexp]

/-- Witness for C9 on the committed triangle with a failing disk write. -/
theorem c9_success_reported_despite_failed_write_witness :
    (winDrawn.canvas.export_mask false).retVal = some true ∧
    (winDrawn.canvas.export_mask false).fileWritten = false ∧
    (winDrawn.save_annotation true "cat" false).2 =
      SaveOutcome.savedInfo ("cat" ++ "_image" ++ splitext_ext "img.png") ("cat" ++ "_mask.png") :=
  c9_success_reported_despite_failed_write winDrawn "img.png" "cat" (3, 3)
    rfl (by decide) (by decide) rfl

/-- C5: `save_annotation` rejects the save with a warning, returning the
window unchanged (so no file is written and the label list is untouched)
whenever no image is loaded, the dialog was cancelled, or the label trims to
the empty string. -/
theorem c5_save_rejected_without_side_effects (w : MainWindow)
    (dialogOk : Bool) (name : String) (writeOk : Bool)
    (h : w.current_file = none ∨ dialogOk = false ∨ pyStrip name = "") :
    (w.save_annotation dialogOk name writeOk).1 = w ∧
    ((w.save_annotation dialogOk name writeOk).2 = SaveOutcome.warnNoImage ∨
      (w.save_annotation dialogOk name writeOk).2 = SaveOutcome.warnInvalidName) := by
  cases hcf : w.current_file with
  | none => simp [MainWindow.save_annotation, hcf]
  | some cf =>
    rcases h with h | h | h
    · rw [hcf] at h; exact absurd h (by simp)
    · subst h; simp [MainWindow.save_annotation, hcf]
    · have hb : (pyStrip name == "") = true := beq_iff_eq.mpr h
      simp [MainWindow.save_annotation, hcf, hb]

/-- Witness for C5: the whitespace label `"   "` is rejected and the window
state (dataset directory and label list included) is unchanged. -/
theorem c5_save_rejected_without_side_effects_witness :
    (winLoaded.save_annotation true "   " true).1 = winLoaded ∧
    ((winLoaded.save_annotation true "   " true).2 = SaveOutcome.warnNoImage ∨
      (winLoaded.save_annotation true "   " true).2 = SaveOutcome.warnInvalidName) :=
  c5_save_rejected_without_side_effects winLoaded true "   " true
    (Or.inr (Or.inr (by decide)))

/-- C2 counterexample: with an image loaded, a valid label and an empty point
sequence, the code still writes the image copy `cat_image.png` into the
dataset directory before `export_mask` reports failure — the claim says no
file is written in this situation. -/
theorem c2_counterexample_copy_despite_failure :
    winLoaded.canvas.points = [] ∧
    (winLoaded.save_annotation true "cat" true).2 = SaveOutcome.warnNothingDrawn ∧
    (winLoaded.save_annotation true "cat" true).1.dataset = ["cat_image.png"] := by
  refine ⟨rfl, ?_, ?_⟩ <;> decide

/-- C2 (amended): when `export_mask` reports no polygon drawn,
`save_annotation` shows the warning, writes no mask and leaves the label list
unrefreshed, but the byte-for-byte image copy has already been written to the
dataset directory unconditionally. -/
theorem c2_amended_warn_but_copy_written (w : MainWindow) (cf name : String)
    (writeOk : Bool) (hcf : w.current_file = some cf)
    (hname : pyStrip name ≠ "") (hpts : w.canvas.points = []) :
    w.save_annotation true name writeOk =
      ({ w with dataset := fsWrite (name ++ "_image" ++ splitext_ext cf) w.dataset },
        SaveOutcome.warnNothingDrawn) := by
  have hb : (pyStrip name == "") = false := beq_eq_false_iff_ne.mpr hname
  have hexp : ∀ ok : Bool, w.canvas.export_mask ok = .failure := fun ok => by
    simp [Canvas.export_mask, hpts]
  simp [MainWindow.save_annotation, hcf, hb, hexp]

/-- Witness for the amended C2 at the loaded-but-undrawn window. -/
theorem c2_amended_warn_but_copy_written_witness :
    winLoaded.save_annotation true "cat" true =
      ({ winLoaded with
          dataset := fsWrite ("cat" ++ "_image" ++ splitext_ext "img.png") winLoaded.dataset },
        SaveOutcome.warnNothingDrawn) :=
  c2_amended_warn_but_copy_written winLoaded "img.png" "cat" true rfl (by decide) rfl

/-- C6: `undo_last` is a no-op on an empty point sequence; otherwise it
removes the most recently appended point and resynthesizes the path from the
remaining points, with the closing edge back to the first point (one extra
path element) exactly when not currently drawing. -/
theorem c6_undo_removes_last_and_resynthesizes (c : Canvas) :
    (c.points = [] → c.undo_last = c) ∧
    (c.points ≠ [] →
      c.undo_last.points = c.points.dropLast ∧
      c.undo_last.path = synthPath c.points.dropLast c.drawing ∧
      (c.points.dropLast ≠ [] →
        c.undo_last.path.elemCount =
          c.points.dropLast.length + (if c.drawing then 0 else 1))) := by
  constructor
  · intro hp
    unfold Canvas.undo_last
    rw [if_pos hp]
  · intro hp
    unfold Canvas.undo_last
    rw [if_neg hp]
    refine ⟨(redraw_path_points _).1, redraw_path_path _, ?_⟩
    intro hrem
    rw [redraw_path_path _]
    exact synthPath_elemCount _ _ hrem

/-- Witness for C6: a no-op on the fresh canvas, and on the committed
triangle `undo_last` drops the last point and rebuilds the closed path. -/
theorem c6_undo_removes_last_and_resynthesizes_witness :
    initCanvas.undo_last = initCanvas ∧
    canvasDrawn.undo_last.points = canvasDrawn.points.dropLast ∧
    canvasDrawn.undo_last.path = synthPath canvasDrawn.points.dropLast canvasDrawn.drawing ∧
    canvasDrawn.undo_last.path.elemCount =
      canvasDrawn.points.dropLast.length + (if canvasDrawn.drawing then 0 else 1) :=
  ⟨(c6_undo_removes_last_and_resynthesizes initCanvas).1 rfl,
   ((c6_undo_removes_last_and_resynthesizes canvasDrawn).2 (by decide)).1,
   ((c6_undo_removes_last_and_resynthesizes canvasDrawn).2 (by decide)).2.1,
   ((c6_undo_removes_last_and_resynthesizes canvasDrawn).2 (by decide)).2.2 (by decide)⟩

/-- C1 (code bug): after committing a first polygon and pressing to start a
second, the point sequence holds only the new point but `self.path` still
contains the first polygon's subpath — `mousePressEvent` only removes the
displayed item and resets `self.points`, it never resets `self.path`.  After
committing the second polygon, the exported mask is `255` at pixel `(1, 1)`
inside the first triangle, although that pixel is outside the polygon of the
current point sequence. -/
theorem c1_stale_path_after_second_press :
    (runEvents c1Events).points = [(5, 5)] ∧
    (runEvents c1Events).path ≠
      synthPath (runEvents c1Events).points (runEvents c1Events).drawing ∧
    (runEvents c1Events).path.subpaths.length = 2 ∧
    (runEvents c1Events2).points = [(5, 5), (6, 5), (6, 6)] ∧
    ((runEvents c1Events2).export_mask true).maskAt 1 1 = some 255 ∧
    (synthPath (runEvents c1Events2).points false).insideEO ((1 : ℤ), (1 : ℤ)) = false := by
  refine ⟨by decide, by decide, by decide, by decide, ?_, by decide⟩
  have hpts : (runEvents c1Events2).points ≠ [] := by decide
  have himg : (runEvents c1Events2).image = some (10, 10) := by decide
  have hexp : (runEvents c1Events2).export_mask true =
      .success (renderMask (10, 10) (runEvents c1Events2).path) true := by
    simp [Canvas.export_mask, hpts, himg]
  rw [hexp]
  show some ((renderMask (10, 10) (runEvents c1Events2).path).pix 1 1) = some 255
  decide

/-- C8 counterexample: for the directory listing `["README"]` the code shows
no label at all, while the claim's reading (split every filename on the first
underscore and collect the prefix) would show `"README"`. -/
theorem c8_counterexample_no_underscore_skipped :
    labelList ["README"] = [] ∧ specLabelList ["README"] = ["README"] := by
  constructor
  · have h : ((["README"].filter (fun f => pyContains f '_')).map (pySplitHead '_')).dedup =
        ([] : List String) := by decide
    rw [labelList, h, List.mergeSort_nil]
  · have h : (["README"].map (pySplitHead '_')).dedup = ["README"] := by decide
    rw [specLabelList, h, List.mergeSort_singleton]

/-- C8 (amended): `update_dataset_list` shows, sorted lexicographically and
without duplicates, exactly the prefixes before the first underscore of those
dataset filenames that contain an underscore; filenames without an underscore
are skipped. -/
theorem c8_amended_label_list_sorted_distinct (items : List String) :
    List.Pairwise (fun a b : String => a ≤ b) (labelList items) ∧
    (labelList items).Nodup ∧
    (∀ a : String, a ∈ labelList items ↔
      ∃ f ∈ items, pyContains f '_' = true ∧ pySplitHead '_' f = a) := by
  unfold labelList
  have hperm : List.Perm
      ((((items.filter (fun f => pyContains f '_')).map (pySplitHead '_')).dedup).mergeSort
        (fun a b : String => a ≤ b))
      (((items.filter (fun f => pyContains f '_')).map (pySplitHead '_')).dedup) :=
    List.mergeSort_perm _ _
  refine ⟨mergeSort_le_pairwise _, ?_, ?_⟩
  · exact hperm.nodup_iff.mpr (List.nodup_dedup _)
  · intro a
    rw [hperm.mem_iff, List.mem_dedup, List.mem_map]
    constructor
    · rintro ⟨f, hf, rfl⟩
      rw [List.mem_filter] at hf
      exact ⟨f, hf.1, hf.2, rfl⟩
    · rintro ⟨f, hf, hc, rfl⟩
      exact ⟨f, List.mem_filter.mpr ⟨hf, hc⟩, rfl⟩
